import Mathlib

/-!
Shallow embedding of `src/utils/base_token.ts` (class `BaseToken`): the
transaction-config builder, the four public operation shapes, the option
validator and the contract lazy-loader.

Modelling conventions:
* JavaScript numbers that the code treats as integers (gas limit, gas price,
  nonce, chain id, fee fields, value) are `Nat`; `Number(x)` on such a value
  is the identity.
* An object field that is absent is `none`; a field holding a value `v` is
  `some v`.  A field assigned `undefined` is identified with an absent field
  (`none`), since every downstream observation in this file (truthiness
  checks, serialisation of the config) treats the two alike.
* JavaScript truthiness on an optional number: absent and `0` are falsy.
* Promises are collapsed: each asynchronous call is recorded in an explicit
  trace (`List ClientCall`) and its result is taken from a pure environment.
  `Promise.all` of the four resolutions becomes the concatenation of the four
  individual traces, in the array order of the source.
* `Object.assign(defaultConfig, txConfig)` mutates its target, which is the
  stored chain-side default record; the embedding threads that record through
  `BaseTokenState` explicitly.
* The TypeScript field `from` is spelled `from_` (`from` is a Lean keyword).
-/

namespace MaticJs

/-- Errors surfaced by the embedded operations: the validator's
`TransactionOptionNotObject` error, the eip-1559 protocol-mismatch `Error`,
and a JavaScript `TypeError` (property access on `null`). -/
inductive JsError where
  | validationError
  | protocolMismatch
  | typeError
  deriving Repr, DecidableEq

/-- `ITransactionConfig` / `ITransactionOption`: all fields optional. -/
structure ITransactionConfig where
  from_ : Option String := none
  to_ : Option String := none
  value : Option Nat := none
  data : Option String := none
  gasLimit : Option Nat := none
  gasPrice : Option Nat := none
  nonce : Option Nat := none
  chainId : Option Nat := none
  maxFeePerGas : Option Nat := none
  maxPriorityFeePerGas : Option Nat := none
  returnTransaction : Option Bool := none
  deriving Repr, DecidableEq

/-- JavaScript truthiness of an optional number: `none` (absent/undefined)
and `some 0` are falsy. -/
def truthyNat : Option Nat → Bool
  | none => false
  | some n => n != 0

/-- JavaScript truthiness of an optional boolean field. -/
def truthyBool : Option Bool → Bool
  | none => false
  | some b => b

/-- The JavaScript value passed as the `option` argument of a public
operation.  `vprim` stands for any value with `typeof ≠ 'object'` (string,
number, boolean, ...).  An `undefined` argument never reaches the functions
of this file: the TypeScript default parameter `option = {}` replaces it with
the empty record, i.e. `vobject {}`. -/
inductive JsValue where
  | vnull
  | varray
  | vprim
  | vobject (cfg : ITransactionConfig)
  deriving Repr, DecidableEq

/-- `typeof option === 'object'` (true for `null`, arrays and records). -/
def typeofIsObject : JsValue → Bool
  | .vprim => false
  | _ => true

/-- `Array.isArray(option)`. -/
def isArray : JsValue → Bool
  | .varray => true
  | _ => false

/-- `validateTxOption_` (base_token.ts lines 120-124): throws the
`TransactionOptionNotObject` validation error when the option is not of
object type or is an array. -/
def validateTxOption_ (option : JsValue) : Except JsError Unit :=
  if !typeofIsObject option || isArray option then
    Except.error JsError.validationError
  else
    Except.ok ()

/-- The option as the `txConfig` argument of `createTransactionConfig`:
`null` becomes `none`, a record carries its fields.  (Arrays and primitives
never reach this point: validation rejects them first.) -/
def jsToConfigOpt : JsValue → Option ITransactionConfig
  | .vobject c => some c
  | _ => none

/-- `option.returnTransaction` as a JavaScript property access: on `null`
it throws a `TypeError`; on a record it is the field's truthiness; property
access on arrays and primitives yields `undefined` (falsy). -/
def optionReturnTransaction : JsValue → Except JsError Bool
  | .vnull => Except.error JsError.typeError
  | .varray => Except.ok false
  | .vprim => Except.ok false
  | .vobject c => Except.ok (truthyBool c.returnTransaction)

/-- A bound contract instance, as produced by `client.getContract(address,
abi)`.  `id` stands for the object identity of the instance. -/
structure BaseContract where
  id : Nat
  address : String
  deriving Repr, DecidableEq

/-- `BaseContractMethod`: a bound contract method.  Each capability is a pure
function of the config it receives; results of `read`/`write` are abstracted
to numbers. -/
structure BaseContractMethod where
  estimateGas : ITransactionConfig → Nat
  encodeABI : String
  address : String
  read : ITransactionConfig → Nat
  write : ITransactionConfig → Nat

/-- `BaseWeb3Client`: the per-chain-side client capability set. -/
structure BaseWeb3Client where
  estimateGas : ITransactionConfig → Nat
  getGasPrice : Nat
  getTransactionCount : Option String → String → Nat
  getChainId : Nat
  read : ITransactionConfig → Nat
  write : ITransactionConfig → Nat
  getContract : String → String → BaseContract

/-- `Web3SideChainClient`: the two chain-side clients, the eip-1559 support
query, and the ABI store (`getABI` may fail, modelling a rejected fetch). -/
structure Web3SideChainClient where
  parent : BaseWeb3Client
  child : BaseWeb3Client
  isEIP1559Supported : Bool → Bool
  getABI : String → Option String → Except String String

/-- `IContractInitParam`. -/
structure IContractInitParam where
  name : String
  bridgeType : Option String := none
  address : String
  isParent : Bool
  deriving Repr, DecidableEq

/-- The mutable state of one `BaseToken` object: the memoized contract and
the two chain-side default config records (stored on the client config in the
source; `createTransactionConfig` mutates the record of its side). -/
structure BaseTokenState where
  contractParam : IContractInitParam
  contract_ : Option BaseContract := none
  parentDefaultConfig : ITransactionConfig := {}
  childDefaultConfig : ITransactionConfig := {}
  deriving Repr, DecidableEq

/-- One observable call to an external capability. -/
inductive ClientCall where
  | methodEstimateGas
  | clientEstimateGas
  | getGasPrice
  | getTransactionCount
  | getChainId
  | clientRead
  | clientWrite
  | methodRead
  | methodWrite
  | getABI
  deriving Repr, DecidableEq

/-- `Object.assign(target, source)` restricted to the transaction-config
fields: a field present on `source` overwrites the target's, an absent one
leaves the target's value. -/
def objectAssign (target source : ITransactionConfig) : ITransactionConfig :=
  { from_ := source.from_ <|> target.from_
    to_ := source.to_ <|> target.to_
    value := source.value <|> target.value
    data := source.data <|> target.data
    gasLimit := source.gasLimit <|> target.gasLimit
    gasPrice := source.gasPrice <|> target.gasPrice
    nonce := source.nonce <|> target.nonce
    chainId := source.chainId <|> target.chainId
    maxFeePerGas := source.maxFeePerGas <|> target.maxFeePerGas
    maxPriorityFeePerGas := source.maxPriorityFeePerGas <|> target.maxPriorityFeePerGas
    returnTransaction := source.returnTransaction <|> target.returnTransaction }

/-- Store a config as the default record of the given chain side (the effect
of mutating the record returned by `parentDefaultConfig` /
`childDefaultConfig`). -/
def setDefaultConfig (st : BaseTokenState) (isParent : Bool)
    (c : ITransactionConfig) : BaseTokenState :=
  if isParent then { st with parentDefaultConfig := c }
  else { st with childDefaultConfig := c }

/-- `ITransactionConfigParam` (base_token.ts lines 11-16).  `txConfig = none`
models a `null`/missing option, handled by the `txConfig || ...` guard. -/
structure ITransactionConfigParam where
  txConfig : Option ITransactionConfig
  method : Option BaseContractMethod
  isWrite : Bool
  isParent : Bool

/-- `createTransactionConfig` (base_token.ts lines 169-208).  Returns the
built config (or the thrown error), the updated token state (the chain-side
default record is the `Object.assign` target and is further mutated by the
field assignments), and the trace of external calls in source order. -/
def createTransactionConfig (client : Web3SideChainClient) (st : BaseTokenState)
    (p : ITransactionConfigParam) :
    Except JsError ITransactionConfig × BaseTokenState × List ClientCall :=
  let defaultConfig := if p.isParent then st.parentDefaultConfig else st.childDefaultConfig
  let txConfig := objectAssign defaultConfig (p.txConfig.getD {})
  let st1 := setDefaultConfig st p.isParent txConfig
  let chainClient := if p.isParent then client.parent else client.child
  if p.isWrite then
    let maxFeePerGas := txConfig.maxFeePerGas
    let maxPriorityFeePerGas := txConfig.maxPriorityFeePerGas
    let isEIP1559Supported := client.isEIP1559Supported p.isParent
    if !p.isParent && isEIP1559Supported
        && (truthyNat maxFeePerGas || truthyNat maxPriorityFeePerGas) then
      (Except.error JsError.protocolMismatch, st1, [])
    else
      let gasLimitR : Nat × List ClientCall :=
        if !(truthyNat txConfig.gasLimit) then
          match p.method with
          | some m =>
            (m.estimateGas { from_ := txConfig.from_, value := txConfig.value },
              [ClientCall.methodEstimateGas])
          | none =>
            (chainClient.estimateGas { from_ := txConfig.from_, value := txConfig.value },
              [ClientCall.clientEstimateGas])
        else (txConfig.gasLimit.getD 0, [])
      let gasPriceR : Nat × List ClientCall :=
        if !(truthyNat txConfig.gasPrice) then
          (chainClient.getGasPrice, [ClientCall.getGasPrice])
        else (txConfig.gasPrice.getD 0, [])
      let nonceR : Nat × List ClientCall :=
        if !(truthyNat txConfig.nonce) then
          (chainClient.getTransactionCount txConfig.from_ "pending",
            [ClientCall.getTransactionCount])
        else (txConfig.nonce.getD 0, [])
      let chainIdR : Nat × List ClientCall :=
        if !(truthyNat txConfig.chainId) then
          (chainClient.getChainId, [ClientCall.getChainId])
        else (txConfig.chainId.getD 0, [])
      let txConfig2 := { txConfig with
        gasLimit := some gasLimitR.1, nonce := some nonceR.1, chainId := some chainIdR.1 }
      let txConfig3 :=
        if isEIP1559Supported then
          { txConfig2 with
            maxFeePerGas := maxFeePerGas, maxPriorityFeePerGas := maxPriorityFeePerGas }
        else
          { txConfig2 with gasPrice := some gasPriceR.1 }
      (Except.ok txConfig3, setDefaultConfig st p.isParent txConfig3,
        gasLimitR.2 ++ gasPriceR.2 ++ nonceR.2 ++ chainIdR.2)
  else
    (Except.ok txConfig, st1, [])

/-- The merged config of a build: `Object.assign(defaultConfig, txConfig || ...)`
for the chain side of the parameter (the value of `txConfig` at line 171). -/
def mergedConfigOf (st : BaseTokenState) (p : ITransactionConfigParam) :
    ITransactionConfig :=
  objectAssign (if p.isParent then st.parentDefaultConfig else st.childDefaultConfig)
    (p.txConfig.getD {})

/-- The condition of the eip-1559 guard (base_token.ts line 182):
`!isParent && isEIP1559Supported && (maxFeePerGas || maxPriorityFeePerGas)`
over the merged config. -/
def eip1559Guard (client : Web3SideChainClient) (st : BaseTokenState)
    (p : ITransactionConfigParam) : Bool :=
  !p.isParent && client.isEIP1559Supported p.isParent
    && (truthyNat (mergedConfigOf st p).maxFeePerGas
        || truthyNat (mergedConfigOf st p).maxPriorityFeePerGas)

/-- The gas-limit resolution of a write-mode build (line 187-189): value and
trace. -/
def resolveGasLimit (client : Web3SideChainClient) (st : BaseTokenState)
    (p : ITransactionConfigParam) : Nat × List ClientCall :=
  let txConfig := mergedConfigOf st p
  let chainClient := if p.isParent then client.parent else client.child
  if !(truthyNat txConfig.gasLimit) then
    match p.method with
    | some m =>
      (m.estimateGas { from_ := txConfig.from_, value := txConfig.value },
        [ClientCall.methodEstimateGas])
    | none =>
      (chainClient.estimateGas { from_ := txConfig.from_, value := txConfig.value },
        [ClientCall.clientEstimateGas])
  else (txConfig.gasLimit.getD 0, [])

/-- The gas-price resolution of a write-mode build (line 190). -/
def resolveGasPrice (client : Web3SideChainClient) (st : BaseTokenState)
    (p : ITransactionConfigParam) : Nat × List ClientCall :=
  let txConfig := mergedConfigOf st p
  let chainClient := if p.isParent then client.parent else client.child
  if !(truthyNat txConfig.gasPrice) then
    (chainClient.getGasPrice, [ClientCall.getGasPrice])
  else (txConfig.gasPrice.getD 0, [])

/-- The nonce resolution of a write-mode build (line 191). -/
def resolveNonce (client : Web3SideChainClient) (st : BaseTokenState)
    (p : ITransactionConfigParam) : Nat × List ClientCall :=
  let txConfig := mergedConfigOf st p
  let chainClient := if p.isParent then client.parent else client.child
  if !(truthyNat txConfig.nonce) then
    (chainClient.getTransactionCount txConfig.from_ "pending",
      [ClientCall.getTransactionCount])
  else (txConfig.nonce.getD 0, [])

/-- The chain-id resolution of a write-mode build (line 192). -/
def resolveChainId (client : Web3SideChainClient) (st : BaseTokenState)
    (p : ITransactionConfigParam) : Nat × List ClientCall :=
  let txConfig := mergedConfigOf st p
  let chainClient := if p.isParent then client.parent else client.child
  if !(truthyNat txConfig.chainId) then
    (chainClient.getChainId, [ClientCall.getChainId])
  else (txConfig.chainId.getD 0, [])

/-- The config produced by a successful write-mode build (lines 195-204):
resolved integer fields written in, then the fee branch. -/
def builtWriteConfig (client : Web3SideChainClient) (st : BaseTokenState)
    (p : ITransactionConfigParam) : ITransactionConfig :=
  let txConfig := mergedConfigOf st p
  let txConfig2 := { txConfig with
    gasLimit := some (resolveGasLimit client st p).1,
    nonce := some (resolveNonce client st p).1,
    chainId := some (resolveChainId client st p).1 }
  if client.isEIP1559Supported p.isParent then
    { txConfig2 with
      maxFeePerGas := txConfig.maxFeePerGas,
      maxPriorityFeePerGas := txConfig.maxPriorityFeePerGas }
  else
    { txConfig2 with gasPrice := some (resolveGasPrice client st p).1 }

/-- The trace of a successful write-mode build, in `Promise.all` array
order. -/
def writeCalls (client : Web3SideChainClient) (st : BaseTokenState)
    (p : ITransactionConfigParam) : List ClientCall :=
  (resolveGasLimit client st p).2 ++ (resolveGasPrice client st p).2
    ++ (resolveNonce client st p).2 ++ (resolveChainId client st p).2

/-- Characterization of the builder in terms of the named components; holds
definitionally. -/
theorem createTransactionConfig_eq (client : Web3SideChainClient)
    (st : BaseTokenState) (p : ITransactionConfigParam) :
    createTransactionConfig client st p =
      if p.isWrite then
        if eip1559Guard client st p then
          (Except.error JsError.protocolMismatch,
            setDefaultConfig st p.isParent (mergedConfigOf st p), [])
        else
          (Except.ok (builtWriteConfig client st p),
            setDefaultConfig st p.isParent (builtWriteConfig client st p),
            writeCalls client st p)
      else
        (Except.ok (mergedConfigOf st p),
          setDefaultConfig st p.isParent (mergedConfigOf st p), []) := rfl

/-- Result of a public operation: the unsent config (when
`returnTransaction` is set), a wrapped write result, or a decoded read
value. -/
inductive OpResult where
  | config (c : ITransactionConfig)
  | writeResult (r : Nat)
  | readValue (r : Nat)
  deriving Repr, DecidableEq

/-- Modelled from the spec: the repository's `merge` utility (imported from
`../utils`, whose source is not under `src/`) shallow-merges its second
argument's fields over the config, here augmenting the config with encoded
call data and a target address. -/
def mergeUtil (config : ITransactionConfig) (data toAddr : String) :
    ITransactionConfig :=
  { config with data := some data, to_ := some toAddr }

/-- `processWrite` (base_token.ts lines 47-71): write-via-method. -/
def processWrite (client : Web3SideChainClient) (st : BaseTokenState)
    (method : BaseContractMethod) (option : JsValue) :
    Except JsError OpResult × BaseTokenState × List ClientCall :=
  match validateTxOption_ option with
  | Except.error e => (Except.error e, st, [])
  | Except.ok _ =>
    let r := createTransactionConfig client st
      { txConfig := jsToConfigOpt option, method := some method,
        isWrite := true, isParent := st.contractParam.isParent }
    match r.1 with
    | Except.error e => (Except.error e, r.2.1, r.2.2)
    | Except.ok config =>
      match optionReturnTransaction option with
      | Except.error e => (Except.error e, r.2.1, r.2.2)
      | Except.ok true =>
        (Except.ok (OpResult.config (mergeUtil config method.encodeABI method.address)),
          r.2.1, r.2.2)
      | Except.ok false =>
        (Except.ok (OpResult.writeResult (method.write config)),
          r.2.1, r.2.2 ++ [ClientCall.methodWrite])

/-- `sendTransaction` (base_token.ts lines 73-96): write-via-client, no bound
method. -/
def sendTransaction (client : Web3SideChainClient) (st : BaseTokenState)
    (option : JsValue) :
    Except JsError OpResult × BaseTokenState × List ClientCall :=
  match validateTxOption_ option with
  | Except.error e => (Except.error e, st, [])
  | Except.ok _ =>
    let isParent := st.contractParam.isParent
    let chainClient := if isParent then client.parent else client.child
    let r := createTransactionConfig client st
      { txConfig := jsToConfigOpt option, method := none,
        isWrite := true, isParent := isParent }
    match r.1 with
    | Except.error e => (Except.error e, r.2.1, r.2.2)
    | Except.ok config =>
      match optionReturnTransaction option with
      | Except.error e => (Except.error e, r.2.1, r.2.2)
      | Except.ok true => (Except.ok (OpResult.config config), r.2.1, r.2.2)
      | Except.ok false =>
        (Except.ok (OpResult.writeResult (chainClient.write config)),
          r.2.1, r.2.2 ++ [ClientCall.clientWrite])

/-- `readTransaction` (base_token.ts lines 98-118): read-via-client.  Note
the build runs with `isWrite: true`. -/
def readTransaction (client : Web3SideChainClient) (st : BaseTokenState)
    (option : JsValue) :
    Except JsError OpResult × BaseTokenState × List ClientCall :=
  match validateTxOption_ option with
  | Except.error e => (Except.error e, st, [])
  | Except.ok _ =>
    let isParent := st.contractParam.isParent
    let chainClient := if isParent then client.parent else client.child
    let r := createTransactionConfig client st
      { txConfig := jsToConfigOpt option, method := none,
        isWrite := true, isParent := isParent }
    match r.1 with
    | Except.error e => (Except.error e, r.2.1, r.2.2)
    | Except.ok config =>
      match optionReturnTransaction option with
      | Except.error e => (Except.error e, r.2.1, r.2.2)
      | Except.ok true => (Except.ok (OpResult.config config), r.2.1, r.2.2)
      | Except.ok false =>
        (Except.ok (OpResult.readValue (chainClient.read config)),
          r.2.1, r.2.2 ++ [ClientCall.clientRead])

/-- `processRead` (base_token.ts lines 126-147): read-via-method.  Note the
build runs with `isWrite: false`.  In the `returnTransaction` branch the
source reads `this.contract_.address`, a `TypeError` when the contract was
never resolved. -/
def processRead (client : Web3SideChainClient) (st : BaseTokenState)
    (method : BaseContractMethod) (option : JsValue) :
    Except JsError OpResult × BaseTokenState × List ClientCall :=
  match validateTxOption_ option with
  | Except.error e => (Except.error e, st, [])
  | Except.ok _ =>
    let r := createTransactionConfig client st
      { txConfig := jsToConfigOpt option, method := some method,
        isWrite := false, isParent := st.contractParam.isParent }
    match r.1 with
    | Except.error e => (Except.error e, r.2.1, r.2.2)
    | Except.ok config =>
      match optionReturnTransaction option with
      | Except.error e => (Except.error e, r.2.1, r.2.2)
      | Except.ok true =>
        match st.contract_ with
        | none => (Except.error JsError.typeError, r.2.1, r.2.2)
        | some c =>
          (Except.ok (OpResult.config (mergeUtil config method.encodeABI c.address)),
            r.2.1, r.2.2)
      | Except.ok false =>
        (Except.ok (OpResult.readValue (method.read config)),
          r.2.1, r.2.2 ++ [ClientCall.methodRead])

/-- `getContract` (base_token.ts lines 29-45): the contract lazy-loader.
Returns memoized instance when present; otherwise fetches the ABI (which may
fail) and, on success, constructs and stores the instance. -/
def getContract (client : Web3SideChainClient) (st : BaseTokenState) :
    Except String BaseContract × BaseTokenState × List ClientCall :=
  match st.contract_ with
  | some c => (Except.ok c, st, [])
  | none =>
    match client.getABI st.contractParam.name st.contractParam.bridgeType with
    | Except.error e => (Except.error e, st, [ClientCall.getABI])
    | Except.ok abi =>
      let chainClient := if st.contractParam.isParent then client.parent else client.child
      let c := chainClient.getContract st.contractParam.address abi
      (Except.ok c, { st with contract_ := some c }, [ClientCall.getABI])

/-- Iterate `getContract` a given number of times, collecting results and the
accumulated call trace. -/
def getContractIter (client : Web3SideChainClient) (st : BaseTokenState) :
    Nat → List (Except String BaseContract) × BaseTokenState × List ClientCall
  | 0 => ([], st, [])
  | n + 1 =>
    let r := getContract client st
    let rest := getContractIter client r.2.1 n
    (r.1 :: rest.1, rest.2.1, r.2.2 ++ rest.2.2)

/-- Whether a call is one of the four network resolutions of a write-mode
build (gas estimate, gas price, transaction count, chain id). -/
def isResolutionCall : ClientCall → Bool
  | ClientCall.methodEstimateGas => true
  | ClientCall.clientEstimateGas => true
  | ClientCall.getGasPrice => true
  | ClientCall.getTransactionCount => true
  | ClientCall.getChainId => true
  | _ => false

/-- The network-resolution calls of a trace. -/
def resolutionCalls (tr : List ClientCall) : List ClientCall :=
  tr.filter isResolutionCall

/-- How many times a given call occurs in a trace. -/
def countCall (c : ClientCall) : List ClientCall → Nat
  | [] => 0
  | x :: xs => (if x = c then 1 else 0) + countCall c xs

/-- Whether an outcome is the validator's error. -/
def isValidationError {α : Type} : Except JsError α → Bool
  | Except.error JsError.validationError => true
  | _ => false

/-! ## Concrete fixtures

Call-counting stubs used by the concrete evaluations: every network
capability returns a fixed small value. -/

/-- A stubbed bound contract method. -/
def stubMethod : BaseContractMethod :=
  { estimateGas := fun _ => 21000, encodeABI := "0xencoded", address := "0xMethod",
    read := fun _ => 42, write := fun _ => 1 }

/-- A stubbed chain-side client: gas estimate 21000, gas price 30, transaction
count 5, chain id 137. -/
def stubSide : BaseWeb3Client :=
  { estimateGas := fun _ => 21000, getGasPrice := 30,
    getTransactionCount := fun _ _ => 5, getChainId := 137,
    read := fun _ => 42, write := fun _ => 7,
    getContract := fun addr _ => { id := 1, address := addr } }

/-- A client whose two sides both lack eip-1559 support. -/
def legacyClient : Web3SideChainClient :=
  { parent := stubSide, child := stubSide,
    isEIP1559Supported := fun _ => false,
    getABI := fun _ _ => Except.ok "abi" }

/-- A client whose two sides both support eip-1559. -/
def eipClient : Web3SideChainClient :=
  { parent := stubSide, child := stubSide,
    isEIP1559Supported := fun _ => true,
    getABI := fun _ _ => Except.ok "abi" }

/-- A child-scoped token. -/
def childToken : BaseTokenState :=
  { contractParam := { name := "TestToken", address := "0xToken", isParent := false } }

/-- A parent-scoped token. -/
def parentToken : BaseTokenState :=
  { contractParam := { name := "TestToken", address := "0xToken", isParent := true } }

/-- A child-scoped token whose child-side default record carries a legacy gas
price. -/
def childTokenWithDefault : BaseTokenState :=
  { contractParam := { name := "TestToken", address := "0xToken", isParent := false },
    childDefaultConfig := { gasPrice := some 9 } }

/-- An option supplying a dynamic fee field. -/
def dynFeeOpt : ITransactionConfig := { from_ := some "0xA", maxFeePerGas := some 5 }

/-- An option supplying gas limit, chain id, and the explicit nonce `0`. -/
def suppliedOpt : ITransactionConfig :=
  { from_ := some "0xA", gasLimit := some 21000, nonce := some 0, chainId := some 137 }

/-! ## Theorems -/

/-- Claim C1: on a child-side write whose merged config carries a dynamic fee
field while the child side lacks eip-1559 support, the build is claimed to
fail with the protocol-mismatch error before any network resolution.  The
code does the opposite: with support absent it proceeds, issues all four
resolutions and the write, and succeeds; it throws the protocol-mismatch
error (whose message says the child chain lacks support) precisely when the
child side reports that it DOES support eip-1559. -/
theorem c1_child_guard_inverted :
    (processWrite legacyClient childToken stubMethod (JsValue.vobject dynFeeOpt)).1
      = Except.ok (OpResult.writeResult 1)
    ∧ (processWrite legacyClient childToken stubMethod (JsValue.vobject dynFeeOpt)).2.2
      = [ClientCall.methodEstimateGas, ClientCall.getGasPrice,
          ClientCall.getTransactionCount, ClientCall.getChainId, ClientCall.methodWrite]
    ∧ (processWrite eipClient childToken stubMethod (JsValue.vobject dynFeeOpt)).1
      = Except.error JsError.protocolMismatch
    ∧ (processWrite eipClient childToken stubMethod (JsValue.vobject dynFeeOpt)).2.2
      = [] := by
  refine ⟨rfl, rfl, rfl, rfl⟩

/-- Claim C2, counterexample: a parent-side write with eip-1559 support
absent and a caller-supplied `maxFeePerGas` builds a config that carries the
legacy gas price AND still carries the caller's dynamic fee field — the
legacy branch never removes the dynamic fee fields. -/
theorem c2_counterexample :
    legacyClient.isEIP1559Supported true = false
    ∧ (createTransactionConfig legacyClient parentToken
        { txConfig := some { from_ := some "0xA", maxFeePerGas := some 7 },
          method := none, isWrite := true, isParent := true }).1
      = Except.ok { from_ := some "0xA", gasLimit := some 21000, gasPrice := some 30,
                    nonce := some 5, chainId := some 137, maxFeePerGas := some 7 } := by
  refine ⟨rfl, rfl⟩

/-- Claim C3, counterexample: with the same stubbed client, read-via-method
(`processRead`) issues no resolution call at all (its only external call is
the method read), while read-via-client (`readTransaction`) eagerly issues
all four resolutions — the two reads do not build their configs the same
way. -/
theorem c3_counterexample :
    (processRead eipClient parentToken stubMethod
        (JsValue.vobject { from_ := some "0xA" })).2.2
      = [ClientCall.methodRead]
    ∧ (readTransaction eipClient parentToken
        (JsValue.vobject { from_ := some "0xA" })).2.2
      = [ClientCall.clientEstimateGas, ClientCall.getGasPrice,
          ClientCall.getTransactionCount, ClientCall.getChainId, ClientCall.clientRead] := by
  refine ⟨rfl, rfl⟩

/-- Claim C4, counterexample: the chain-side default record is NOT unchanged
after a build: before the write the child default record has no nonce; after
the write it carries the resolved nonce (the merge target is the stored
default record, which the builder then fills in place). -/
theorem c4_counterexample :
    childTokenWithDefault.childDefaultConfig.nonce = none
    ∧ (processWrite eipClient childTokenWithDefault stubMethod
        (JsValue.vobject { from_ := some "0xA" })).2.1.childDefaultConfig.nonce
      = some 5 := by
  refine ⟨rfl, rfl⟩

/-- Helper: the config builder never raises the validator's error (its only
throw is the protocol-mismatch guard). -/
theorem builder_not_validationError (client : Web3SideChainClient)
    (st : BaseTokenState) (p : ITransactionConfigParam) :
    isValidationError (createTransactionConfig client st p).1 = false := by
  rw [createTransactionConfig_eq]
  by_cases hw : p.isWrite = true <;> by_cases hg : eip1559Guard client st p = true <;>
    simp [hw, hg, isValidationError]

/-- Helper: `countCall` distributes over trace concatenation. -/
theorem countCall_append (c : ClientCall) (a b : List ClientCall) :
    countCall c (a ++ b) = countCall c a + countCall c b := by
  induction a with
  | nil => simp [countCall]
  | cons x xs ih => simp [countCall, ih]; omega

/-- Helper: a call absent from a trace has count zero. -/
theorem countCall_eq_zero (c : ClientCall) (l : List ClientCall)
    (h : ∀ x ∈ l, x ≠ c) : countCall c l = 0 := by
  induction l with
  | nil => rfl
  | cons y ys ih =>
    have hy := h y (by simp)
    have hys : ∀ x ∈ ys, x ≠ c := fun x hx => h x (by simp [hx])
    simp [countCall, hy, ih hys]

/-- Helper: the gas-limit resolution emits one estimate call or none. -/
theorem resolveGasLimit_trace (client : Web3SideChainClient)
    (st : BaseTokenState) (p : ITransactionConfigParam) :
    (resolveGasLimit client st p).2 = [ClientCall.methodEstimateGas]
    ∨ (resolveGasLimit client st p).2 = [ClientCall.clientEstimateGas]
    ∨ (resolveGasLimit client st p).2 = [] := by
  unfold resolveGasLimit
  dsimp only
  split
  · cases hm : p.method <;> simp
  · simp

/-- Helper: the gas-price resolution emits one `getGasPrice` call or none. -/
theorem resolveGasPrice_trace (client : Web3SideChainClient)
    (st : BaseTokenState) (p : ITransactionConfigParam) :
    (resolveGasPrice client st p).2 = [ClientCall.getGasPrice]
    ∨ (resolveGasPrice client st p).2 = [] := by
  unfold resolveGasPrice
  dsimp only
  split <;> simp

/-- Helper: when the merged config has no truthy gas price, the gas-price
resolution issues exactly the `getGasPrice` call. -/
theorem resolveGasPrice_trace_falsy (client : Web3SideChainClient)
    (st : BaseTokenState) (p : ITransactionConfigParam)
    (h : truthyNat (mergedConfigOf st p).gasPrice = false) :
    (resolveGasPrice client st p).2 = [ClientCall.getGasPrice] := by
  unfold resolveGasPrice
  dsimp only
  simp [h]

/-- Helper: the nonce resolution emits one `getTransactionCount` call or
none. -/
theorem resolveNonce_trace (client : Web3SideChainClient)
    (st : BaseTokenState) (p : ITransactionConfigParam) :
    (resolveNonce client st p).2 = [ClientCall.getTransactionCount]
    ∨ (resolveNonce client st p).2 = [] := by
  unfold resolveNonce
  dsimp only
  split <;> simp

/-- Helper: the chain-id resolution emits one `getChainId` call or none. -/
theorem resolveChainId_trace (client : Web3SideChainClient)
    (st : BaseTokenState) (p : ITransactionConfigParam) :
    (resolveChainId client st p).2 = [ClientCall.getChainId]
    ∨ (resolveChainId client st p).2 = [] := by
  unfold resolveChainId
  dsimp only
  split <;> simp

/-- Helper: every call of a write-mode build trace is a resolution call. -/
theorem writeCalls_resolution (client : Web3SideChainClient)
    (st : BaseTokenState) (p : ITransactionConfigParam) :
    ∀ x ∈ writeCalls client st p, isResolutionCall x = true := by
  intro x hx
  unfold writeCalls at hx
  simp only [List.mem_append] at hx
  rcases hx with ((h | h) | h) | h
  · rcases resolveGasLimit_trace client st p with ht | ht | ht <;>
      rw [ht] at h <;> simp_all [isResolutionCall]
  · rcases resolveGasPrice_trace client st p with ht | ht <;>
      rw [ht] at h <;> simp_all [isResolutionCall]
  · rcases resolveNonce_trace client st p with ht | ht <;>
      rw [ht] at h <;> simp_all [isResolutionCall]
  · rcases resolveChainId_trace client st p with ht | ht <;>
      rw [ht] at h <;> simp_all [isResolutionCall]

/-- Claim C5: for an option value that is an array or a non-object, each of
the four public operations fails synchronously with the validation error,
leaves the token state untouched, and issues zero external calls. -/
theorem c5_invalid_option_rejected (client : Web3SideChainClient)
    (st : BaseTokenState) (m : BaseContractMethod) (v : JsValue)
    (h : (!typeofIsObject v || isArray v) = true) :
    processWrite client st m v = (Except.error JsError.validationError, st, [])
    ∧ sendTransaction client st v = (Except.error JsError.validationError, st, [])
    ∧ readTransaction client st v = (Except.error JsError.validationError, st, [])
    ∧ processRead client st m v = (Except.error JsError.validationError, st, []) := by
  have hv : validateTxOption_ v = Except.error JsError.validationError := by
    simp [validateTxOption_, h]
  refine ⟨?_, ?_, ?_, ?_⟩ <;>
    simp [processWrite, sendTransaction, readTransaction, processRead, hv]

/-- Claim C5, witness: an array option is rejected by all four operations
with no external call. -/
theorem c5_invalid_option_rejected_witness :
    processWrite legacyClient parentToken stubMethod JsValue.varray
      = (Except.error JsError.validationError, parentToken, [])
    ∧ sendTransaction legacyClient parentToken JsValue.varray
      = (Except.error JsError.validationError, parentToken, [])
    ∧ readTransaction legacyClient parentToken JsValue.varray
      = (Except.error JsError.validationError, parentToken, [])
    ∧ processRead legacyClient parentToken stubMethod JsValue.varray
      = (Except.error JsError.validationError, parentToken, []) :=
  c5_invalid_option_rejected legacyClient parentToken stubMethod JsValue.varray
    (by decide)

/-- Claim C9: a `null` option passes `validateTxOption_` (`typeof null` is
`'object'` and `null` is not an array), and consequently no public operation
rejects `null` with the validation error. -/
theorem c9_null_passes_validation (client : Web3SideChainClient)
    (st : BaseTokenState) (m : BaseContractMethod) :
    validateTxOption_ JsValue.vnull = Except.ok ()
    ∧ isValidationError (processWrite client st m JsValue.vnull).1 = false
    ∧ isValidationError (sendTransaction client st JsValue.vnull).1 = false
    ∧ isValidationError (readTransaction client st JsValue.vnull).1 = false
    ∧ isValidationError (processRead client st m JsValue.vnull).1 = false := by
  refine ⟨rfl, ?_, ?_, ?_, ?_⟩
  · have hb := builder_not_validationError client st
      { txConfig := jsToConfigOpt JsValue.vnull, method := some m,
        isWrite := true, isParent := st.contractParam.isParent }
    simp only [processWrite, validateTxOption_, typeofIsObject, isArray]
    rcases hres : (createTransactionConfig client st
        { txConfig := jsToConfigOpt JsValue.vnull, method := some m,
          isWrite := true, isParent := st.contractParam.isParent }).1 with e | cfg
    · rw [hres] at hb
      cases e <;> simp_all [isValidationError]
    · simp [hres, optionReturnTransaction, isValidationError]
  · have hb := builder_not_validationError client st
      { txConfig := jsToConfigOpt JsValue.vnull, method := none,
        isWrite := true, isParent := st.contractParam.isParent }
    simp only [sendTransaction, validateTxOption_, typeofIsObject, isArray]
    rcases hres : (createTransactionConfig client st
        { txConfig := jsToConfigOpt JsValue.vnull, method := none,
          isWrite := true, isParent := st.contractParam.isParent }).1 with e | cfg
    · rw [hres] at hb
      cases e <;> simp_all [isValidationError]
    · simp [hres, optionReturnTransaction, isValidationError]
  · have hb := builder_not_validationError client st
      { txConfig := jsToConfigOpt JsValue.vnull, method := none,
        isWrite := true, isParent := st.contractParam.isParent }
    simp only [readTransaction, validateTxOption_, typeofIsObject, isArray]
    rcases hres : (createTransactionConfig client st
        { txConfig := jsToConfigOpt JsValue.vnull, method := none,
          isWrite := true, isParent := st.contractParam.isParent }).1 with e | cfg
    · rw [hres] at hb
      cases e <;> simp_all [isValidationError]
    · simp [hres, optionReturnTransaction, isValidationError]
  · have hb := builder_not_validationError client st
      { txConfig := jsToConfigOpt JsValue.vnull, method := some m,
        isWrite := false, isParent := st.contractParam.isParent }
    simp only [processRead, validateTxOption_, typeofIsObject, isArray]
    rcases hres : (createTransactionConfig client st
        { txConfig := jsToConfigOpt JsValue.vnull, method := some m,
          isWrite := false, isParent := st.contractParam.isParent }).1 with e | cfg
    · rw [hres] at hb
      cases e <;> simp_all [isValidationError]
    · simp [hres, optionReturnTransaction, isValidationError]

/-- Claim C6, counterexample: with gas limit, nonce and chain id all
explicitly supplied (nonce `0`, a legitimate first-transaction nonce), the
builder still issues `getTransactionCount`: the presence checks are
truthiness checks, so a supplied falsy value is re-resolved. -/
theorem c6_counterexample :
    suppliedOpt.gasLimit = some 21000
    ∧ suppliedOpt.nonce = some 0
    ∧ suppliedOpt.chainId = some 137
    ∧ (createTransactionConfig legacyClient parentToken
        { txConfig := some suppliedOpt, method := some stubMethod,
          isWrite := true, isParent := true }).2.2
      = [ClientCall.getGasPrice, ClientCall.getTransactionCount] := by
  refine ⟨rfl, rfl, rfl, rfl⟩

/-- Claim C3 (amended): read-via-method does NOT reuse the write-mode
field-resolution path: `processRead` passes `isWrite: false`, so its build
returns the merged config unchanged and the operation issues no resolution
call (gas limit, gas price, nonce and chain id are never fetched). -/
theorem c3_processRead_lazy (client : Web3SideChainClient)
    (st : BaseTokenState) (m : BaseContractMethod) (o : ITransactionConfig) :
    resolutionCalls (processRead client st m (JsValue.vobject o)).2.2 = []
    ∧ (createTransactionConfig client st
        { txConfig := some o, method := some m, isWrite := false,
          isParent := st.contractParam.isParent }).1
      = Except.ok (mergedConfigOf st
          { txConfig := some o, method := some m, isWrite := false,
            isParent := st.contractParam.isParent }) := by
  constructor
  · cases hb : truthyBool o.returnTransaction <;>
      cases hc : st.contract_ <;>
      simp [processRead, validateTxOption_, typeofIsObject, isArray, jsToConfigOpt,
        optionReturnTransaction, createTransactionConfig_eq, hb, hc,
        resolutionCalls, isResolutionCall]
  · rfl

/-- Claim C7: when the return-unsent flag is set, read-via-client resolves
the config, returns it as the operation result, and never invokes the chain
client's read capability. -/
theorem c7_return_unsent_config (client : Web3SideChainClient)
    (st : BaseTokenState) (o : ITransactionConfig) (cfg : ITransactionConfig)
    (hrt : truthyBool o.returnTransaction = true)
    (h : (createTransactionConfig client st
        { txConfig := some o, method := none, isWrite := true,
          isParent := st.contractParam.isParent }).1 = Except.ok cfg) :
    (readTransaction client st (JsValue.vobject o)).1
      = Except.ok (OpResult.config cfg)
    ∧ countCall ClientCall.clientRead
        (readTransaction client st (JsValue.vobject o)).2.2 = 0 := by
  by_cases hg : eip1559Guard client st
      { txConfig := some o, method := none, isWrite := true,
        isParent := st.contractParam.isParent } = true
  · rw [createTransactionConfig_eq] at h
    simp [hg] at h
  · have hr : createTransactionConfig client st
        { txConfig := some o, method := none, isWrite := true,
          isParent := st.contractParam.isParent }
      = (Except.ok (builtWriteConfig client st
            { txConfig := some o, method := none, isWrite := true,
              isParent := st.contractParam.isParent }),
          setDefaultConfig st st.contractParam.isParent
            (builtWriteConfig client st
              { txConfig := some o, method := none, isWrite := true,
                isParent := st.contractParam.isParent }),
          writeCalls client st
            { txConfig := some o, method := none, isWrite := true,
              isParent := st.contractParam.isParent }) := by
      rw [createTransactionConfig_eq]
      simp [hg]
    have hcfg : builtWriteConfig client st
        { txConfig := some o, method := none, isWrite := true,
          isParent := st.contractParam.isParent } = cfg := by
      rw [hr] at h
      simpa using h
    constructor
    · simp [readTransaction, validateTxOption_, typeofIsObject, isArray,
        jsToConfigOpt, optionReturnTransaction, hr, hrt, hcfg]
    · have hz : ∀ x ∈ writeCalls client st
          { txConfig := some o, method := none, isWrite := true,
            isParent := st.contractParam.isParent }, x ≠ ClientCall.clientRead := by
        intro x hx he
        have := writeCalls_resolution client st
          { txConfig := some o, method := none, isWrite := true,
            isParent := st.contractParam.isParent } x hx
        rw [he] at this
        simp [isResolutionCall] at this
      simp [readTransaction, validateTxOption_, typeofIsObject, isArray,
        jsToConfigOpt, optionReturnTransaction, hr, hrt]
      exact countCall_eq_zero _ _ hz

/-- Claim C7, witness: a read-via-client call with the return-unsent flag
returns the resolved config and issues no chain read. -/
theorem c7_return_unsent_config_witness :
    (readTransaction legacyClient parentToken
        (JsValue.vobject { from_ := some "0xA", returnTransaction := some true })).1
      = Except.ok (OpResult.config
          { from_ := some "0xA", gasLimit := some 21000, gasPrice := some 30,
            nonce := some 5, chainId := some 137, returnTransaction := some true })
    ∧ countCall ClientCall.clientRead
        (readTransaction legacyClient parentToken
          (JsValue.vobject { from_ := some "0xA", returnTransaction := some true })).2.2
      = 0 :=
  c7_return_unsent_config legacyClient parentToken
    { from_ := some "0xA", returnTransaction := some true }
    { from_ := some "0xA", gasLimit := some 21000, gasPrice := some 30,
      nonce := some 5, chainId := some 137, returnTransaction := some true }
    (by rfl) (by rfl)

/-- Claim C2 (amended): in a successful write-mode build the fee fields are
set as follows.  Without eip-1559 support the config carries the integer
legacy gas price (supplied or resolved), but the dynamic fee fields are NOT
removed: they pass through from the merged config.  With support, the
dynamic pair passes through from the merged config and the builder does not
touch the legacy gas price (it keeps whatever the merged config had). -/
theorem c2_fee_fields (client : Web3SideChainClient) (st : BaseTokenState)
    (p : ITransactionConfigParam) (cfg : ITransactionConfig)
    (hw : p.isWrite = true)
    (h : (createTransactionConfig client st p).1 = Except.ok cfg) :
    (client.isEIP1559Supported p.isParent = false →
      cfg.gasPrice = some (resolveGasPrice client st p).1
      ∧ cfg.maxFeePerGas = (mergedConfigOf st p).maxFeePerGas
      ∧ cfg.maxPriorityFeePerGas = (mergedConfigOf st p).maxPriorityFeePerGas)
    ∧ (client.isEIP1559Supported p.isParent = true →
      cfg.gasPrice = (mergedConfigOf st p).gasPrice
      ∧ cfg.maxFeePerGas = (mergedConfigOf st p).maxFeePerGas
      ∧ cfg.maxPriorityFeePerGas = (mergedConfigOf st p).maxPriorityFeePerGas) := by
  by_cases hg : eip1559Guard client st p = true
  · rw [createTransactionConfig_eq] at h
    simp [hw, hg] at h
  · rw [createTransactionConfig_eq] at h
    simp [hw, hg] at h
    subst h
    constructor <;> intro hs <;> simp [builtWriteConfig, hs]

/-- Claim C2 (amended), witness: a parent-side legacy write with no caller
fee fields carries the resolved integer gas price and empty dynamic pair. -/
theorem c2_fee_fields_witness :
    (legacyClient.isEIP1559Supported true = false →
      ({ from_ := some "0xA", gasLimit := some 21000, gasPrice := some 30,
         nonce := some 5, chainId := some 137 } : ITransactionConfig).gasPrice
        = some 30
      ∧ ({ from_ := some "0xA", gasLimit := some 21000, gasPrice := some 30,
           nonce := some 5, chainId := some 137 } : ITransactionConfig).maxFeePerGas
        = none
      ∧ ({ from_ := some "0xA", gasLimit := some 21000, gasPrice := some 30,
           nonce := some 5, chainId := some 137 } : ITransactionConfig).maxPriorityFeePerGas
        = none)
    ∧ (legacyClient.isEIP1559Supported true = true →
      ({ from_ := some "0xA", gasLimit := some 21000, gasPrice := some 30,
         nonce := some 5, chainId := some 137 } : ITransactionConfig).gasPrice
        = none
      ∧ ({ from_ := some "0xA", gasLimit := some 21000, gasPrice := some 30,
           nonce := some 5, chainId := some 137 } : ITransactionConfig).maxFeePerGas
        = none
      ∧ ({ from_ := some "0xA", gasLimit := some 21000, gasPrice := some 30,
           nonce := some 5, chainId := some 137 } : ITransactionConfig).maxPriorityFeePerGas
        = none) :=
  c2_fee_fields legacyClient parentToken
    { txConfig := some { from_ := some "0xA" }, method := none,
      isWrite := true, isParent := true }
    { from_ := some "0xA", gasLimit := some 21000, gasPrice := some 30,
      nonce := some 5, chainId := some 137 }
    (by rfl) (by rfl)

/-- Claim C6 (amended): when the merged config carries truthy (nonzero) gas
limit, nonce and chain id, and no truthy legacy gas price, a successful
write-mode build issues exactly one resolution call: `getGasPrice`. -/
theorem c6_truthy_fields_skip_resolution (client : Web3SideChainClient)
    (st : BaseTokenState) (p : ITransactionConfigParam) (cfg : ITransactionConfig)
    (hw : p.isWrite = true)
    (hgl : truthyNat (mergedConfigOf st p).gasLimit = true)
    (hn : truthyNat (mergedConfigOf st p).nonce = true)
    (hc : truthyNat (mergedConfigOf st p).chainId = true)
    (hgp : truthyNat (mergedConfigOf st p).gasPrice = false)
    (h : (createTransactionConfig client st p).1 = Except.ok cfg) :
    (createTransactionConfig client st p).2.2 = [ClientCall.getGasPrice] := by
  by_cases hg : eip1559Guard client st p = true
  · rw [createTransactionConfig_eq] at h
    simp [hw, hg] at h
  · rw [createTransactionConfig_eq]
    simp [hw, hg, writeCalls, resolveGasLimit, resolveGasPrice, resolveNonce,
      resolveChainId, hgl, hn, hc, hgp]

/-- Claim C6 (amended), witness: supplying nonzero gas limit, nonce and chain
id leaves `getGasPrice` as the only resolution call. -/
theorem c6_truthy_fields_skip_resolution_witness :
    (createTransactionConfig legacyClient parentToken
        { txConfig := some { from_ := some "0xA", gasLimit := some 21000,
                             nonce := some 1, chainId := some 137 },
          method := some stubMethod, isWrite := true, isParent := true }).2.2
      = [ClientCall.getGasPrice] :=
  c6_truthy_fields_skip_resolution legacyClient parentToken
    { txConfig := some { from_ := some "0xA", gasLimit := some 21000,
                         nonce := some 1, chainId := some 137 },
      method := some stubMethod, isWrite := true, isParent := true }
    { from_ := some "0xA", gasLimit := some 21000, gasPrice := some 30,
      nonce := some 1, chainId := some 137 }
    (by rfl) (by rfl) (by rfl) (by rfl) (by rfl) (by rfl)

/-- Claim C10, counterexample: the caller omits the legacy gas price, yet
`getGasPrice` is NOT invoked: the check at line 190 tests the merged config,
so a truthy gas price supplied by the chain-side default record suppresses
the resolution entirely. -/
theorem c10_counterexample :
    ({ from_ := some "0xA" } : ITransactionConfig).gasPrice = none
    ∧ childTokenWithDefault.childDefaultConfig.gasPrice = some 9
    ∧ countCall ClientCall.getGasPrice
        (createTransactionConfig eipClient childTokenWithDefault
          { txConfig := some { from_ := some "0xA" }, method := some stubMethod,
            isWrite := true, isParent := false }).2.2
      = 0 := by
  refine ⟨rfl, rfl, rfl⟩

/-- Claim C10 (amended): in a successful write-mode build whose MERGED config
has no legacy gas price (neither the caller nor the chain-side defaults
supply one), `getGasPrice` is invoked exactly once — even when the chain
side supports eip-1559, in which case the resolved value is discarded: the
built config still has no gas price.  (When the merged config already
carries a truthy gas price, the call is suppressed, as the counterexample
shows.) -/
theorem c10_gasPrice_always_resolved (client : Web3SideChainClient)
    (st : BaseTokenState) (p : ITransactionConfigParam) (cfg : ITransactionConfig)
    (hw : p.isWrite = true)
    (hgp : (mergedConfigOf st p).gasPrice = none)
    (h : (createTransactionConfig client st p).1 = Except.ok cfg) :
    countCall ClientCall.getGasPrice (createTransactionConfig client st p).2.2 = 1
    ∧ (client.isEIP1559Supported p.isParent = true → cfg.gasPrice = none) := by
  have hgp' : truthyNat (mergedConfigOf st p).gasPrice = false := by
    rw [hgp]; rfl
  by_cases hg : eip1559Guard client st p = true
  · rw [createTransactionConfig_eq] at h
    simp [hw, hg] at h
  · have htr : (createTransactionConfig client st p).2.2 = writeCalls client st p := by
      rw [createTransactionConfig_eq]
      simp [hw, hg]
    have h1 : countCall ClientCall.getGasPrice (resolveGasLimit client st p).2 = 0 := by
      rcases resolveGasLimit_trace client st p with ht | ht | ht <;> rw [ht] <;> rfl
    have h2 : countCall ClientCall.getGasPrice (resolveGasPrice client st p).2 = 1 := by
      rw [resolveGasPrice_trace_falsy client st p hgp']; rfl
    have h3 : countCall ClientCall.getGasPrice (resolveNonce client st p).2 = 0 := by
      rcases resolveNonce_trace client st p with ht | ht <;> rw [ht] <;> rfl
    have h4 : countCall ClientCall.getGasPrice (resolveChainId client st p).2 = 0 := by
      rcases resolveChainId_trace client st p with ht | ht <;> rw [ht] <;> rfl
    constructor
    · rw [htr]
      unfold writeCalls
      rw [countCall_append, countCall_append, countCall_append, h1, h2, h3, h4]
    · intro hs
      rw [createTransactionConfig_eq] at h
      simp [hw, hg] at h
      subst h
      simp [builtWriteConfig, hs, hgp]

/-- Claim C10, witness: with eip-1559 support and no supplied gas price, the
build issues one `getGasPrice` call and the built config has no gas price. -/
theorem c10_gasPrice_always_resolved_witness :
    countCall ClientCall.getGasPrice
        (createTransactionConfig eipClient parentToken
          { txConfig := some { from_ := some "0xA" }, method := some stubMethod,
            isWrite := true, isParent := true }).2.2
      = 1
    ∧ (eipClient.isEIP1559Supported true = true →
        ({ from_ := some "0xA", gasLimit := some 21000, nonce := some 5,
           chainId := some 137 } : ITransactionConfig).gasPrice = none) :=
  c10_gasPrice_always_resolved eipClient parentToken
    { txConfig := some { from_ := some "0xA" }, method := some stubMethod,
      isWrite := true, isParent := true }
    { from_ := some "0xA", gasLimit := some 21000, nonce := some 5,
      chainId := some 137 }
    (by rfl) (by rfl) (by rfl)

/-- Claim C4 (amended): the shallow merge gives caller-keys-win semantics,
but it is performed in place on the stored chain-side default record, which
afterwards also receives the resolved fields: after any successful build the
default record of the build's chain side equals the built config, so a later
build observes the previous build's config as its defaults. -/
theorem c4_default_record_overwritten (client : Web3SideChainClient)
    (st : BaseTokenState) (p : ITransactionConfigParam) (cfg : ITransactionConfig)
    (h : (createTransactionConfig client st p).1 = Except.ok cfg) :
    (if p.isParent then (createTransactionConfig client st p).2.1.parentDefaultConfig
     else (createTransactionConfig client st p).2.1.childDefaultConfig) = cfg := by
  rw [createTransactionConfig_eq] at h ⊢
  by_cases hw : p.isWrite = true
  · by_cases hg : eip1559Guard client st p = true
    · simp [hw, hg] at h
    · simp [hw, hg] at h ⊢
      cases hp : p.isParent <;> simp [setDefaultConfig, hp] <;> exact h
  · simp [hw] at h ⊢
    cases hp : p.isParent <;> simp [setDefaultConfig, hp] <;> exact h

/-- Claim C4 (amended), witness: after a child-side write the stored child
default record equals the built config. -/
theorem c4_default_record_overwritten_witness :
    (createTransactionConfig eipClient childTokenWithDefault
        { txConfig := some { from_ := some "0xA" }, method := some stubMethod,
          isWrite := true, isParent := false }).2.1.childDefaultConfig
      = { from_ := some "0xA", gasLimit := some 21000, gasPrice := some 9,
          nonce := some 5, chainId := some 137 } :=
  c4_default_record_overwritten eipClient childTokenWithDefault
    { txConfig := some { from_ := some "0xA" }, method := some stubMethod,
      isWrite := true, isParent := false }
    { from_ := some "0xA", gasLimit := some 21000, gasPrice := some 9,
      nonce := some 5, chainId := some 137 }
    (by rfl)

/-- Helper: a successful `getContract` leaves the instance memoized. -/
theorem getContract_contract_some (client : Web3SideChainClient)
    (st : BaseTokenState) (c : BaseContract) (st2 : BaseTokenState)
    (tr : List ClientCall)
    (h : getContract client st = (Except.ok c, st2, tr)) :
    st2.contract_ = some c := by
  unfold getContract at h
  rcases hc : st.contract_ with _ | c0
  · rw [hc] at h
    rcases habi : client.getABI st.contractParam.name st.contractParam.bridgeType
        with e | abi <;> rw [habi] at h <;>
      simp only [Prod.mk.injEq, Except.ok.injEq] at h
    · exact absurd h.1 (by simp)
    · obtain ⟨h1, h2, h3⟩ := h
      rw [← h2, h1]
  · rw [hc] at h
    simp only [Prod.mk.injEq, Except.ok.injEq] at h
    obtain ⟨h1, h2, h3⟩ := h
    rw [← h2, hc, h1]

/-- Helper: with a memoized instance, `getContract` returns it with no call
and no state change. -/
theorem getContract_memoized (client : Web3SideChainClient)
    (st2 : BaseTokenState) (c : BaseContract) (h : st2.contract_ = some c) :
    getContract client st2 = (Except.ok c, st2, []) := by
  unfold getContract
  rw [h]

/-- Helper: one `getContract` call fetches the ABI at most once. -/
theorem getContract_trace (client : Web3SideChainClient) (st : BaseTokenState) :
    (getContract client st).2.2 = []
    ∨ (getContract client st).2.2 = [ClientCall.getABI] := by
  unfold getContract
  cases hc : st.contract_
  · cases habi : client.getABI st.contractParam.name st.contractParam.bridgeType <;> simp
  · simp

/-- Claim C8: a successful `getContract` performs at most one ABI fetch, and
from then on every further call returns the same memoized instance, with no
further fetch and no state change. -/
theorem c8_contract_memoization (client : Web3SideChainClient)
    (st : BaseTokenState) (c : BaseContract) (st2 : BaseTokenState)
    (tr : List ClientCall)
    (h : getContract client st = (Except.ok c, st2, tr)) (n : Nat) :
    countCall ClientCall.getABI tr ≤ 1
    ∧ getContractIter client st2 n = (List.replicate n (Except.ok c), st2, []) := by
  have hc2 := getContract_contract_some client st c st2 tr h
  constructor
  · have htr : (getContract client st).2.2 = tr := by rw [h]
    rcases getContract_trace client st with ht | ht <;> rw [htr] at ht <;>
      rw [ht] <;> simp [countCall]
  · induction n with
    | zero => rfl
    | succ k ih =>
      simp [getContractIter, getContract_memoized client st2 c hc2, ih,
        List.replicate]

/-- Claim C8, witness: after the first successful resolution (one ABI
fetch), two further calls return the same instance with no fetch. -/
theorem c8_contract_memoization_witness :
    countCall ClientCall.getABI [ClientCall.getABI] ≤ 1
    ∧ getContractIter legacyClient
        { contractParam := { name := "TestToken", address := "0xToken", isParent := false },
          contract_ := some { id := 1, address := "0xToken" } } 2
      = (List.replicate 2 (Except.ok ({ id := 1, address := "0xToken" } : BaseContract)),
          { contractParam := { name := "TestToken", address := "0xToken", isParent := false },
            contract_ := some { id := 1, address := "0xToken" } }, []) :=
  c8_contract_memoization legacyClient childToken
    { id := 1, address := "0xToken" }
    { contractParam := { name := "TestToken", address := "0xToken", isParent := false },
      contract_ := some { id := 1, address := "0xToken" } }
    [ClientCall.getABI] (by rfl) 2

end MaticJs
